import Mathlib

/-!
Verification of the persistence-and-reminder subsystem of the MyTasks
application (React Native / TypeScript).

The development shallowly embeds:
* the platform date serialization used by `JSON.stringify` on `Date` values
  (ISO-8601 with full millisecond precision, `Date.prototype.toISOString`)
  and the corresponding re-parse performed by `new Date(isoString)`;
* the `StorageService` task repository (storage service module of the
  source): `getTasks`, `saveTasks`, `addTask`, `updateTask`, `deleteTask`,
  `getTaskById`, `getTaskStats`, `getSettings`, `clearAllData`;
* the `NotificationService` permission gate and scheduler
  (src/services/notificationService.ts);
* the `handleToggleComplete` UI handler of the tasks screen.

Timestamps are modelled as integer milliseconds since the Unix epoch, the
value underlying a JavaScript `Date`.  The persistent key-value store is a
record with one field per storage key (`tasks`, `settings`, `first_launch`);
the `tasks` field holds the serialized form, with each timestamp stored as
its ISO-8601 calendar components, exactly the information content of the
string produced by `toISOString` (the year/month/day/… digits).  Storage
faults are not modelled: every claim examined here is conditioned on the
underlying store not faulting, and on the fault-free path the try/catch
wrappers in the source are identities.
-/

set_option maxHeartbeats 4000000

namespace MyTasks

/-!  ## Platform date model

`Date.prototype.toISOString` renders the timestamp as proleptic-Gregorian
UTC calendar components; `new Date(iso)` parses them back.  The standard
conversion between a day number (days since 1970-01-01) and a calendar
date (y, m, d) is the civil-from-days / days-from-civil algorithm realizing
the ECMAScript specification's "make day" operations.  Divisions below are
Lean's integer `/`, which floors for the positive divisors used here.
-/

/-- Day number (days since 1970-01-01) to proleptic-Gregorian (year, month, day). -/
def civilFromDays (z : Int) : Int × Int × Int :=
  let zs := z + 719468
  let era := zs / 146097
  let doe := zs - era * 146097
  let yoe := (doe - doe / 1460 + doe / 36524 - doe / 146096) / 365
  let doy := doe - (365 * yoe + yoe / 4 - yoe / 100)
  let mp := (5 * doy + 2) / 153
  let d := doy - (153 * mp + 2) / 5 + 1
  let m := if mp < 10 then mp + 3 else mp - 9
  (yoe + era * 400 + (if m ≤ 2 then 1 else 0), m, d)

/-- Proleptic-Gregorian (year, month, day) to day number (days since 1970-01-01). -/
def daysFromCivil (y m d : Int) : Int :=
  let yy := y - (if m ≤ 2 then 1 else 0)
  let era := yy / 400
  let yoe := yy - era * 400
  let doy := (153 * (if 2 < m then m - 3 else m + 9) + 2) / 5 + d - 1
  let doe := yoe * 365 + yoe / 4 - yoe / 100 + doy
  era * 146097 + doe - 719468

/-- The calendar components carried by an ISO-8601 timestamp string
(`YYYY-MM-DDTHH:mm:ss.sssZ`), i.e. the exact information content of the
output of `Date.prototype.toISOString`. -/
structure ISODate where
  year : Int
  month : Int
  day : Int
  hour : Int
  minute : Int
  second : Int
  millisecond : Int
deriving DecidableEq

/-- `Date.prototype.toISOString` on a timestamp of `n` milliseconds since
the epoch, at component level: UTC calendar date plus time of day with
milliseconds (full precision, never date-only). -/
def encodeISO (n : Int) : ISODate :=
  let days := n / 86400000
  let ms := n % 86400000
  let c := civilFromDays days
  { year := c.1, month := c.2.1, day := c.2.2
    hour := ms / 3600000
    minute := ms / 60000 % 60
    second := ms / 1000 % 60
    millisecond := ms % 1000 }

/-- `new Date(isoString)`: recombine the ISO-8601 components into
milliseconds since the epoch (the ECMAScript date-time string parse). -/
def decodeISO (c : ISODate) : Int :=
  daysFromCivil c.year c.month c.day * 86400000
    + c.hour * 3600000 + c.minute * 60000 + c.second * 1000 + c.millisecond

/-!  ## Data model

The type declarations live in the `types` module of the repository, which
is not part of the corpus; their shapes are pinned by every use site in
the storage service, the screens and the theme constants, and match §3 of
the specification.
-/

/-- Modelled from the spec: `status` enumeration {PENDING, COMPLETED} of
the missing src/types module; the two values are the ones used by
`StorageService.getTaskStats` and the screens. -/
inductive TaskStatus
  | PENDING
  | COMPLETED
deriving DecidableEq

/-- Modelled from the spec: `priority` enumeration {HIGH, MEDIUM, LOW} of
the missing src/types module. -/
inductive TaskPriority
  | HIGH
  | MEDIUM
  | LOW
deriving DecidableEq

/-- Modelled from the spec: theme mode enumeration {light, dark}. -/
inductive ThemeMode
  | light
  | dark
deriving DecidableEq

/-- Modelled from the spec: the Task record of the missing src/types
module, fields as enumerated in §3 and used throughout the source.
Timestamp fields are milliseconds since the epoch (JavaScript `Date`
values). -/
structure Task where
  id : String
  title : String
  description : Option String
  priority : TaskPriority
  status : TaskStatus
  createdAt : Int
  updatedAt : Int
  dueDate : Option Int
  reminderTime : Option Int
  notificationId : Option String
deriving DecidableEq

/-- A task as it sits in the persistent store: the image of a `Task`
under `JSON.stringify`, where every `Date` has been rendered by
`toISOString` (absent optional fields are dropped by `JSON.stringify`
and restored as absent on parse). -/
structure JTask where
  id : String
  title : String
  description : Option String
  priority : TaskPriority
  status : TaskStatus
  createdAt : ISODate
  updatedAt : ISODate
  dueDate : Option ISODate
  reminderTime : Option ISODate
  notificationId : Option String
deriving DecidableEq

/-- Serialization of one task record (`JSON.stringify` inside
`StorageService.saveTasks`). -/
def encodeTask (t : Task) : JTask :=
  { id := t.id
    title := t.title
    description := t.description
    priority := t.priority
    status := t.status
    createdAt := encodeISO t.createdAt
    updatedAt := encodeISO t.updatedAt
    dueDate := t.dueDate.map encodeISO
    reminderTime := t.reminderTime.map encodeISO
    notificationId := t.notificationId }

/-- Deserialization of one task record: `JSON.parse` followed by the
explicit date revival in `StorageService.getTasks` (`new Date(task.createdAt)`,
`new Date(task.updatedAt)`, and conditional revival of `dueDate` and
`reminderTime`). -/
def decodeTask (j : JTask) : Task :=
  { id := j.id
    title := j.title
    description := j.description
    priority := j.priority
    status := j.status
    createdAt := decodeISO j.createdAt
    updatedAt := decodeISO j.updatedAt
    dueDate := j.dueDate.map decodeISO
    reminderTime := j.reminderTime.map decodeISO
    notificationId := j.notificationId }

/-- Modelled from the spec: the Settings record of the missing src/types
module; field shapes are pinned by `defaultSettings` in
src/constants/theme.ts and §3. -/
structure AppSettings where
  notificationDelay : Int
  themeMode : ThemeMode
  enableNotifications : Bool
  dailyReminderTime : String
deriving DecidableEq

/-- Default app settings, from src/constants/theme.ts. -/
def defaultSettings : AppSettings :=
  { notificationDelay := 30
    themeMode := ThemeMode.dark
    enableNotifications := true
    dailyReminderTime := "09:00" }

/-- Derived statistics record (`TaskStats` of the missing src/types
module), shape pinned by `StorageService.getTaskStats`. -/
structure TaskStats where
  total : Nat
  completed : Nat
  pending : Nat
  highPriority : Nat
  dueSoon : Nat
deriving DecidableEq

/-- The persistent key-value namespace (AsyncStorage): one field per
storage key — the task collection (`STORAGE_KEYS.TASKS`, serialized), the
settings record (`STORAGE_KEYS.SETTINGS`), and the first-launch marker
(`STORAGE_KEYS.FIRST_LAUNCH`).  `none` means the key is absent. -/
structure Store where
  tasks : Option (List JTask)
  settings : Option AppSettings
  firstLaunch : Option String
deriving DecidableEq

/-- A `Partial<Task>` argument to `StorageService.updateTask`: a field is
`none` when the key is absent from the update object, and `some v` when
the key is present with value `v` (for optional Task fields, `some none`
is a key present with value `undefined`, which the JavaScript spread
`{...task, ...updates}` does copy over the stored value). -/
structure TaskUpdate where
  id : Option String := none
  title : Option String := none
  description : Option (Option String) := none
  priority : Option TaskPriority := none
  status : Option TaskStatus := none
  createdAt : Option Int := none
  updatedAt : Option Int := none
  dueDate : Option (Option Int) := none
  reminderTime : Option (Option Int) := none
  notificationId : Option (Option String) := none
deriving DecidableEq

/-- The merge `{...tasks[taskIndex], ...updates, updatedAt: new Date()}`
performed by `StorageService.updateTask`: each field present in the update
wholesale replaces the stored one, and `updatedAt` is then set to the
current instant regardless. -/
def mergeTask (t : Task) (u : TaskUpdate) (now : Int) : Task :=
  { id := u.id.getD t.id
    title := u.title.getD t.title
    description := u.description.getD t.description
    priority := u.priority.getD t.priority
    status := u.status.getD t.status
    createdAt := u.createdAt.getD t.createdAt
    updatedAt := now
    dueDate := u.dueDate.getD t.dueDate
    reminderTime := u.reminderTime.getD t.reminderTime
    notificationId := u.notificationId.getD t.notificationId }

namespace StorageService

/-- `StorageService.getTasks`: read the tasks key; absence yields `[]`;
otherwise parse and revive the dates. -/
def getTasks (s : Store) : List Task :=
  match s.tasks with
  | none => []
  | some js => js.map decodeTask

/-- `StorageService.saveTasks`: serialize and write the whole collection;
returns the success flag together with the resulting store (`true` on the
fault-free path modelled here). -/
def saveTasks (s : Store) (ts : List Task) : Bool × Store :=
  (true, { s with tasks := some (ts.map encodeTask) })

/-- `StorageService.addTask`: read all, push at the end, save all. -/
def addTask (s : Store) (t : Task) : Bool × Store :=
  saveTasks s (getTasks s ++ [t])

/-- Replace the first task whose id matches, as
`tasks.findIndex(task => task.id === taskId)` followed by assignment at
that index does; `none` when no task matches (`taskIndex === -1`). -/
def updateFirst (ts : List Task) (taskId : String) (u : TaskUpdate) (now : Int) :
    Option (List Task) :=
  match ts with
  | [] => none
  | t :: rest =>
    if t.id = taskId then some (mergeTask t u now :: rest)
    else (updateFirst rest taskId u now).map (t :: ·)

/-- `StorageService.updateTask`: returns `false` and leaves the store
untouched when no task has the id; otherwise merges the update onto the
first matching task, refreshes `updatedAt`, and saves. -/
def updateTask (s : Store) (taskId : String) (u : TaskUpdate) (now : Int) :
    Bool × Store :=
  match updateFirst (getTasks s) taskId u now with
  | none => (false, s)
  | some ts => saveTasks s ts

/-- `StorageService.deleteTask`: keep exactly the tasks whose id differs
(`tasks.filter(task => task.id !== taskId)`) and save. -/
def deleteTask (s : Store) (taskId : String) : Bool × Store :=
  saveTasks s ((getTasks s).filter (fun t => decide (t.id ≠ taskId)))

/-- `StorageService.getTaskById`: first task with the id, absent otherwise
(`tasks.find(task => task.id === taskId) || null`). -/
def getTaskById (s : Store) (taskId : String) : Option Task :=
  (getTasks s).find? (fun t => decide (t.id = taskId))

/-- `StorageService.getTaskStats` evaluated at instant `now`
(`const now = new Date()`); `tomorrow` is `now + 24h`.  Note the `dueSoon`
filter keeps any pending task with `dueDate <= tomorrow` — there is no
lower bound on the due date. -/
def getTaskStats (s : Store) (now : Int) : TaskStats :=
  let tasks := getTasks s
  let tomorrow := now + 24 * 60 * 60 * 1000
  { total := tasks.length
    completed := (tasks.filter (fun t => decide (t.status = TaskStatus.COMPLETED))).length
    pending := (tasks.filter (fun t => decide (t.status = TaskStatus.PENDING))).length
    highPriority := (tasks.filter (fun t =>
      decide (t.priority = TaskPriority.HIGH) && decide (t.status = TaskStatus.PENDING))).length
    dueSoon := (tasks.filter (fun t =>
      (match t.dueDate with
        | some dd => decide (dd ≤ tomorrow)
        | none => false)
      && decide (t.status = TaskStatus.PENDING))).length }

/-- `StorageService.getSettings`: absence of the settings key yields the
documented defaults. -/
def getSettings (s : Store) : AppSettings :=
  match s.settings with
  | none => defaultSettings
  | some st => st

/-- `StorageService.clearAllData`: `AsyncStorage.multiRemove` of the tasks
key and the settings key; the first-launch marker is not in the removed
list. -/
def clearAllData (s : Store) : Bool × Store :=
  (true, { s with tasks := none, settings := none })

end StorageService

/-!  ## Notification service model (src/services/notificationService.ts)

The platform permission state and the outcome of a permission prompt are
inputs (`PermEnv`); the service's only own state is the private
`initialized` flag.  Calls to the underlying notification primitive are
recorded explicitly so that "no call reaches the primitive" is a statement
about the model, not an assumption.
-/

/-- An expo-notifications permission status as far as the service inspects
it (`granted` versus anything else). -/
inductive PermStatus
  | granted
  | denied
  | undetermined
deriving DecidableEq

/-- The platform's answers for one permission-gate call: the status
returned by `getPermissionsAsync` and the status a prompt would return. -/
structure PermEnv where
  existingStatus : PermStatus
  requestResult : PermStatus
deriving DecidableEq

/-- The notification service's own state: the private `initialized` flag,
set after the first run of the permission gate (also on the denied and
error paths, "to prevent repeated attempts"). -/
structure NotifState where
  initialized : Bool
deriving DecidableEq

namespace NotificationService

/-- The service's permission-initialization method (the spec's
`ensurePermission`): returns the boolean result, the new service state,
and the number of permission prompts issued during the call.  An
already-initialized service returns `true` immediately; otherwise the
existing permission is checked, a prompt is issued only when it is not
already granted, and the flag is set regardless of the outcome. -/
def ensurePermission (st : NotifState) (env : PermEnv) : Bool × NotifState × Nat :=
  if st.initialized then (true, st, 0)
  else
    let prompts := if env.existingStatus = PermStatus.granted then 0 else 1
    let finalStatus :=
      if env.existingStatus = PermStatus.granted then PermStatus.granted
      else env.requestResult
    if finalStatus = PermStatus.granted then (true, { initialized := true }, prompts)
    else (false, { initialized := true }, prompts)

/-- `NotificationService.scheduleTaskNotification (task, delayMinutes = 0)`
evaluated at instant `now`: resolves the trigger as `task.reminderTime`
if present, else `now + delayMinutes` minutes; returns `null` without
touching the primitive when nothing is to be scheduled or the trigger is
not in the future.  The second component records the trigger instants
passed to `Notifications.scheduleNotificationAsync`; `freshId` is the
handle the platform returns when the call is made.  (The method also runs
the permission gate first but ignores its result, so scheduling is
modelled independently of the permission state.) -/
def scheduleTaskNotification (task : Task) (delayMinutes : Int) (now : Int)
    (freshId : String) : Option String × List Int :=
  if task.reminderTime = none ∧ delayMinutes = 0 then (none, [])
  else
    let triggerTime :=
      match task.reminderTime with
      | some r => r
      | none => now + delayMinutes * 60 * 1000
    if triggerTime ≤ now then (none, [])
    else (some freshId, [triggerTime])

/-- The trigger instant `scheduleTaskNotification` resolves:
`task.reminderTime` if present, else `now + delayMinutes` minutes. -/
def resolvedTrigger (task : Task) (delayMinutes : Int) (now : Int) : Int :=
  match task.reminderTime with
  | some r => r
  | none => now + delayMinutes * 60 * 1000

end NotificationService

/-!  ## Tasks screen: completion toggle (handleToggleComplete)

The handler receives the in-memory task card, flips its status through
`StorageService.updateTask`, and — when the new status is COMPLETED and
the in-memory task carries a notification handle — cancels that handle
through `NotificationService.cancelNotification`.  Cancellations are
recorded in order.
-/

/-- Store plus the log of notification handles passed to
`Notifications.cancelScheduledNotificationAsync`. -/
structure SysState where
  store : Store
  cancelCalls : List String
deriving DecidableEq

/-- `handleToggleComplete(task)` in the tasks screen, evaluated at instant
`now`: compute the flipped status, persist it via
`updateTask(task.id, { status: newStatus })`, and on success cancel the
in-memory task's notification handle when the task was just completed.
No other field of the stored task is written. -/
def handleToggleComplete (st : SysState) (task : Task) (now : Int) : SysState :=
  let newStatus :=
    if task.status = TaskStatus.COMPLETED then TaskStatus.PENDING
    else TaskStatus.COMPLETED
  let r := StorageService.updateTask st.store task.id { status := some newStatus } now
  if r.1 then
    match newStatus, task.notificationId with
    | TaskStatus.COMPLETED, some nid =>
      { store := r.2, cancelCalls := st.cancelCalls ++ [nid] }
    | _, _ => { store := r.2, cancelCalls := st.cancelCalls }
  else { store := st.store, cancelCalls := st.cancelCalls }

/-!  ## Specification-side counting functions and concrete examples -/

/-- The due-soon statistic as the specification words it: the number of
tasks that are PENDING and have a due date lying between the evaluation
instant and the instant plus 24 hours. -/
def dueSoonSpecCount (ts : List Task) (now : Int) : Nat :=
  (ts.filter (fun t =>
    decide (t.status = TaskStatus.PENDING) &&
    (match t.dueDate with
      | some dd => decide (now ≤ dd) && decide (dd ≤ now + 24 * 60 * 60 * 1000)
      | none => false))).length

/-- The due-soon statistic with the lower bound dropped: PENDING tasks
whose due date is at most 24 hours after the evaluation instant, however
far in the past it may lie. -/
def dueSoonUpperBoundOnly (ts : List Task) (now : Int) : Nat :=
  (ts.filter (fun t =>
    decide (t.status = TaskStatus.PENDING) &&
    (match t.dueDate with
      | some dd => decide (dd ≤ now + 24 * 60 * 60 * 1000)
      | none => false))).length

/-- A pending task holding a notification handle (completion-toggle
scenario input). -/
def exTask1 : Task :=
  { id := "1", title := "Pay rent", description := none
    priority := TaskPriority.HIGH, status := TaskStatus.PENDING
    createdAt := 1700000000000, updatedAt := 1700000000000
    dueDate := none, reminderTime := some 1700003600000
    notificationId := some "n1" }

/-- A store holding exactly `exTask1` in serialized form. -/
def exStore1 : Store :=
  { tasks := some [encodeTask exTask1], settings := none, firstLaunch := none }

/-- System state for the completion-toggle scenario: `exStore1`, no
cancellations issued yet. -/
def exSys1 : SysState :=
  { store := exStore1, cancelCalls := [] }

/-- A pending task whose due date (500 ms after the epoch) is long past. -/
def exOverdue : Task :=
  { id := "o1", title := "overdue", description := none
    priority := TaskPriority.LOW, status := TaskStatus.PENDING
    createdAt := 0, updatedAt := 0
    dueDate := some 500, reminderTime := none, notificationId := none }

/-- A store holding exactly `exOverdue`. -/
def exStoreO : Store :=
  { tasks := some [encodeTask exOverdue], settings := none, firstLaunch := none }

/-- A stored task for the update-merge scenario. -/
def exTaskW : Task :=
  { id := "w1", title := "old title", description := some "d"
    priority := TaskPriority.MEDIUM, status := TaskStatus.PENDING
    createdAt := 100, updatedAt := 200
    dueDate := none, reminderTime := some 5000, notificationId := none }

/-- A store holding exactly `exTaskW`. -/
def exStoreW : Store :=
  { tasks := some [encodeTask exTaskW], settings := none, firstLaunch := none }

/-- A partial update touching title and status only. -/
def exUpdW : TaskUpdate :=
  { title := some "new title", status := some TaskStatus.COMPLETED }

/-- A task already stored before the round-trip scenario, with an id
different from the task to be added. -/
def exOtherR : Task :=
  { id := "r0", title := "existing", description := none
    priority := TaskPriority.LOW, status := TaskStatus.COMPLETED
    createdAt := 1600000000111, updatedAt := 1600000000222
    dueDate := none, reminderTime := none, notificationId := none }

/-- The task added in the round-trip scenario; every timestamp field is
set, with nonzero milliseconds, so that the round trip exercises full
timestamp precision. -/
def exTaskR : Task :=
  { id := "r1", title := "Pay rent", description := some "monthly"
    priority := TaskPriority.HIGH, status := TaskStatus.PENDING
    createdAt := 1700000000123, updatedAt := 1700000000123
    dueDate := some 1700003600456, reminderTime := some 1700003600789
    notificationId := none }

/-- A store holding exactly `exOtherR`. -/
def exStoreR : Store :=
  { tasks := some [encodeTask exOtherR], settings := none, firstLaunch := none }

/-- A pending task whose reminder time (700 000 ms) lies five minutes
before the evaluation instant 1 000 000 ms. -/
def exPast : Task :=
  { id := "p1", title := "past reminder", description := none
    priority := TaskPriority.MEDIUM, status := TaskStatus.PENDING
    createdAt := 0, updatedAt := 0
    dueDate := none, reminderTime := some 700000, notificationId := none }

/-- A store with every key absent. -/
def exFresh : Store :=
  { tasks := none, settings := none, firstLaunch := none }

/-!  ## Date round-trip -/

theorem yoe_bounds (doe yoe : Int) (h1 : 0 ≤ doe) (h2 : doe < 146097)
    (hy : yoe = (doe - doe / 1460 + doe / 36524 - doe / 146096) / 365) :
    0 ≤ yoe ∧ yoe ≤ 399 := by omega

theorem doy_bounds (doe yoe doy : Int) (h1 : 0 ≤ doe) (h2 : doe < 146097)
    (hy : yoe = (doe - doe / 1460 + doe / 36524 - doe / 146096) / 365)
    (hd : doy = doe - (365 * yoe + yoe / 4 - yoe / 100)) :
    0 ≤ doy ∧ doy ≤ 365 := by
  have hb1 : 0 ≤ yoe := by omega
  have hb2 : yoe ≤ 399 := by omega
  interval_cases yoe <;> omega

theorem mp_bounds (doy mp : Int) (h1 : 0 ≤ doy) (h2 : doy ≤ 365)
    (hm : mp = (5 * doy + 2) / 153) : 0 ≤ mp ∧ mp ≤ 11 := by omega

theorem daysFromCivil_eq (zs era doe yoe doy mp d m y : Int)
    (hera : era = zs / 146097)
    (hdoe : doe = zs - era * 146097)
    (hyoe : yoe = (doe - doe / 1460 + doe / 36524 - doe / 146096) / 365)
    (hdoy : doy = doe - (365 * yoe + yoe / 4 - yoe / 100))
    (hmp : mp = (5 * doy + 2) / 153)
    (hd : d = doy - (153 * mp + 2) / 5 + 1)
    (hm : m = if mp < 10 then mp + 3 else mp - 9)
    (hy : y = yoe + era * 400 + (if m ≤ 2 then 1 else 0)) :
    daysFromCivil y m d = zs - 719468 := by
  have hdoe1 : 0 ≤ doe := by clear hyoe hdoy hmp hd hm hy; omega
  have hdoe2 : doe < 146097 := by clear hyoe hdoy hmp hd hm hy; omega
  obtain ⟨hyoe1, hyoe2⟩ := yoe_bounds doe yoe hdoe1 hdoe2 hyoe
  obtain ⟨hdoy1, hdoy2⟩ := doy_bounds doe yoe doy hdoe1 hdoe2 hyoe hdoy
  obtain ⟨hmp0, hmp11⟩ := mp_bounds doy mp hdoy1 hdoy2 hmp
  clear hyoe hmp hera
  have hera2 : (yoe + era * 400) / 400 = era := by omega
  have hyoe3 : yoe + era * 400 - (yoe + era * 400) / 400 * 400 = yoe := by omega
  have hdoy3 : (153 * mp + 2) / 5 + d - 1 = doy := by omega
  have hdoe3 : yoe * 365 + yoe / 4 - yoe / 100 + doy = doe := by omega
  by_cases h10 : mp < 10
  · rw [if_pos h10] at hm
    have hmle : ¬ m ≤ 2 := by omega
    have hyy : y - (if m ≤ 2 then 1 else 0) = yoe + era * 400 := by
      rw [if_neg hmle]
      rw [if_neg hmle] at hy
      omega
    have hmp2 : (if 2 < m then m - 3 else m + 9) = mp := by
      rw [if_pos (show 2 < m by omega)]
      omega
    simp only [daysFromCivil]
    rw [hyy, hyoe3, hera2, hmp2, hdoy3, hdoe3]
    omega
  · rw [if_neg h10] at hm
    have hmle : m ≤ 2 := by omega
    have hyy : y - (if m ≤ 2 then 1 else 0) = yoe + era * 400 := by
      rw [if_pos hmle]
      rw [if_pos hmle] at hy
      omega
    have hmp2 : (if 2 < m then m - 3 else m + 9) = mp := by
      rw [if_neg (show ¬ 2 < m by omega)]
      omega
    simp only [daysFromCivil]
    rw [hyy, hyoe3, hera2, hmp2, hdoy3, hdoe3]
    omega

/-- Converting a day number to a calendar date and back is the identity. -/
theorem daysFromCivil_civilFromDays (z : Int) :
    daysFromCivil (civilFromDays z).1 (civilFromDays z).2.1 (civilFromDays z).2.2 = z := by
  have h := daysFromCivil_eq (z + 719468)
    ((z + 719468) / 146097)
    ((z + 719468) - ((z + 719468) / 146097) * 146097)
    _ _ _ _ _ _ rfl rfl rfl rfl rfl rfl rfl rfl
  simpa [civilFromDays] using h

/-- Serializing a timestamp to ISO-8601 and parsing it back is the
identity: the full millisecond timestamp survives. -/
theorem decodeISO_encodeISO (n : Int) : decodeISO (encodeISO n) = n := by
  have h := daysFromCivil_civilFromDays (n / 86400000)
  simp only [encodeISO, decodeISO]
  rw [h]
  omega

/-- Serializing a task record and parsing it back is the identity. -/
theorem decodeTask_encodeTask (t : Task) : decodeTask (encodeTask t) = t := by
  obtain ⟨i, ti, de, pr, st, ca, ua, dd, rt, ni⟩ := t
  simp only [encodeTask, decodeTask, decodeISO_encodeISO]
  cases dd <;> cases rt <;> simp [decodeISO_encodeISO]

/-!  ## Repository lemmas -/

/-- Reading back what `saveTasks` wrote returns exactly the saved
collection: serialization round-trips. -/
theorem getTasks_saveTasks (s : Store) (ts : List Task) :
    StorageService.getTasks (StorageService.saveTasks s ts).2 = ts := by
  simp [StorageService.getTasks, StorageService.saveTasks, List.map_map,
    Function.comp_def, decodeTask_encodeTask]

theorem updateFirst_none (ts : List Task) (taskId : String) (u : TaskUpdate) (now : Int)
    (h : ts.find? (fun t => decide (t.id = taskId)) = none) :
    StorageService.updateFirst ts taskId u now = none := by
  induction ts with
  | nil => rfl
  | cons t rest ih =>
    by_cases ht : t.id = taskId
    · rw [List.find?_cons_of_pos _ (by simpa using ht)] at h
      exact absurd h (by simp)
    · rw [List.find?_cons_of_neg _ (by simpa using ht)] at h
      simp only [StorageService.updateFirst, if_neg ht, ih h, Option.map_none']

theorem updateFirst_some (ts : List Task) (taskId : String) (u : TaskUpdate) (now : Int)
    (t0 : Task) (hid : u.id = none)
    (h : ts.find? (fun t => decide (t.id = taskId)) = some t0) :
    ∃ ts2, StorageService.updateFirst ts taskId u now = some ts2 ∧
      ts2.find? (fun t => decide (t.id = taskId)) = some (mergeTask t0 u now) := by
  induction ts with
  | nil => simp [List.find?] at h
  | cons t rest ih =>
    by_cases ht : t.id = taskId
    · rw [List.find?_cons_of_pos _ (by simpa using ht)] at h
      have ht0 : t = t0 := by simpa using h
      subst ht0
      refine ⟨mergeTask t u now :: rest, by simp [StorageService.updateFirst, if_pos ht], ?_⟩
      have hmid : (mergeTask t u now).id = taskId := by
        simp [mergeTask, hid, ht]
      rw [List.find?_cons_of_pos _ (by simpa using hmid)]
    · rw [List.find?_cons_of_neg _ (by simpa using ht)] at h
      obtain ⟨ts2, h1, h2⟩ := ih h
      refine ⟨t :: ts2, ?_, ?_⟩
      · simp [StorageService.updateFirst, if_neg ht, h1]
      · rw [List.find?_cons_of_neg _ (by simpa using ht)]
        exact h2

/-- `scheduleTaskNotification` in guarded form: the two refusal guards in
source order, then the platform call at the resolved trigger. -/
theorem scheduleTaskNotification_eq (task : Task) (d now : Int) (fid : String) :
    NotificationService.scheduleTaskNotification task d now fid =
      if task.reminderTime = none ∧ d = 0 then (none, [])
      else if NotificationService.resolvedTrigger task d now ≤ now then (none, [])
      else (some fid, [NotificationService.resolvedTrigger task d now]) := rfl

/-!  ## Claims -/

/-- Claim C6: `scheduleTaskNotification` resolves the trigger instant as
`task.reminderTime` if present, else `now + fallbackDelayMinutes`; it
returns absent without invoking the underlying notification primitive
whenever the resolved trigger is at or before `now`, and also returns
absent when the fallback delay is 0 and no reminder time is set; in the
remaining case it invokes the primitive once at the resolved trigger. -/
theorem scheduleTaskNotification_refusals (task : Task) (delayMinutes now : Int)
    (freshId : String) :
    (NotificationService.resolvedTrigger task delayMinutes now ≤ now →
      NotificationService.scheduleTaskNotification task delayMinutes now freshId
        = (none, [])) ∧
    (task.reminderTime = none ∧ delayMinutes = 0 →
      NotificationService.scheduleTaskNotification task delayMinutes now freshId
        = (none, [])) ∧
    (now < NotificationService.resolvedTrigger task delayMinutes now →
      ¬ (task.reminderTime = none ∧ delayMinutes = 0) →
      NotificationService.scheduleTaskNotification task delayMinutes now freshId
        = (some freshId, [NotificationService.resolvedTrigger task delayMinutes now])) := by
  rw [scheduleTaskNotification_eq]
  refine ⟨?_, ?_, ?_⟩
  · intro h
    by_cases hg : task.reminderTime = none ∧ delayMinutes = 0
    · rw [if_pos hg]
    · rw [if_neg hg, if_pos h]
  · intro h
    rw [if_pos h]
  · intro h1 h2
    rw [if_neg h2, if_neg (not_le.mpr h1)]

/-- Claim C6 witness: a reminder five minutes in the past is refused and
the primitive is never called. -/
theorem scheduleTaskNotification_refusals_witness :
    NotificationService.scheduleTaskNotification exPast 30 1000000 "h1" = (none, []) :=
  (scheduleTaskNotification_refusals exPast 30 1000000 "h1").1 (by decide)

/-- Claim C7: on a store where the settings key is absent, `getSettings`
returns exactly the documented default settings record
(notificationDelay 30, dark theme, notifications enabled, daily reminder
at 09:00). -/
theorem getSettings_default (s : Store) (h : s.settings = none) :
    StorageService.getSettings s =
      { notificationDelay := 30, themeMode := ThemeMode.dark
        enableNotifications := true, dailyReminderTime := "09:00" } := by
  simp [StorageService.getSettings, h, defaultSettings]

/-- Claim C7 witness: the fresh store has no settings key and yields the
documented defaults. -/
theorem getSettings_default_witness :
    exFresh.settings = none ∧
    StorageService.getSettings exFresh =
      { notificationDelay := 30, themeMode := ThemeMode.dark
        enableNotifications := true, dailyReminderTime := "09:00" } :=
  ⟨rfl, getSettings_default exFresh rfl⟩

/-- Claim C8: for every id, deleting twice in a row reports success both
times (fault-free store), and afterwards `getTaskById` returns absent;
in particular deleting a nonexistent id reports success. -/
theorem deleteTask_idempotent (s : Store) (taskId : String) :
    (StorageService.deleteTask s taskId).1 = true ∧
    (StorageService.deleteTask (StorageService.deleteTask s taskId).2 taskId).1 = true ∧
    StorageService.getTaskById
      (StorageService.deleteTask (StorageService.deleteTask s taskId).2 taskId).2 taskId
      = none := by
  refine ⟨rfl, rfl, ?_⟩
  simp only [StorageService.deleteTask, StorageService.getTaskById, getTasks_saveTasks]
  rw [List.find?_eq_none]
  intro x hx
  have hx2 := (List.mem_filter.mp hx).2
  simpa using hx2

/-- Claim C9: `clearAllData` removes exactly the task-collection key and
the settings key, leaves the first-launch marker unchanged, and afterwards
the task list reads back empty and the settings read back as the
documented defaults. -/
theorem clearAllData_frame (s : Store) :
    (StorageService.clearAllData s).1 = true ∧
    (StorageService.clearAllData s).2.tasks = none ∧
    (StorageService.clearAllData s).2.settings = none ∧
    (StorageService.clearAllData s).2.firstLaunch = s.firstLaunch ∧
    StorageService.getTasks (StorageService.clearAllData s).2 = [] ∧
    StorageService.getSettings (StorageService.clearAllData s).2 = defaultSettings :=
  ⟨rfl, rfl, rfl, rfl, rfl, rfl⟩

/-- Claim C10: one `deleteTask` call removes every stored task whose id
equals the argument (duplicates included), after which `getTaskById`
returns absent; and `addTask` appends without deduplicating, so the
collection can hold several tasks sharing an id. -/
theorem deleteTask_removes_all_duplicates (s : Store) (taskId : String) (t : Task) :
    StorageService.getTasks (StorageService.deleteTask s taskId).2 =
      (StorageService.getTasks s).filter (fun x => decide (x.id ≠ taskId)) ∧
    StorageService.getTaskById (StorageService.deleteTask s taskId).2 taskId = none ∧
    StorageService.getTasks (StorageService.addTask s t).2 =
      StorageService.getTasks s ++ [t] := by
  refine ⟨?_, ?_, ?_⟩
  · simp only [StorageService.deleteTask, getTasks_saveTasks]
  · simp only [StorageService.deleteTask, StorageService.getTaskById, getTasks_saveTasks]
    rw [List.find?_eq_none]
    intro x hx
    have hx2 := (List.mem_filter.mp hx).2
    simpa using hx2
  · simp only [StorageService.addTask, getTasks_saveTasks]

/-- Claim C2 counterexample: a pending task whose due date is long past is
counted by `getTaskStats.dueSoon`, while no task lies between the
evaluation instant and the instant plus 24 hours — the statistic does not
equal the spec's count. -/
theorem dueSoon_overdue_counterexample :
    (StorageService.getTaskStats exStoreO 1000000).dueSoon = 1 ∧
    dueSoonSpecCount (StorageService.getTasks exStoreO) 1000000 = 0 ∧
    ¬ (StorageService.getTaskStats exStoreO 1000000).dueSoon =
        dueSoonSpecCount (StorageService.getTasks exStoreO) 1000000 := by
  decide

/-- Claim C2 (amended): the due-soon statistic equals the number of
PENDING tasks whose due date is at most 24 hours after the evaluation
instant — with no lower bound, so overdue tasks are included. -/
theorem dueSoon_no_lower_bound (s : Store) (now : Int) :
    (StorageService.getTaskStats s now).dueSoon =
      dueSoonUpperBoundOnly (StorageService.getTasks s) now := by
  simp only [StorageService.getTaskStats, dueSoonUpperBoundOnly]
  congr 1
  apply List.filter_congr
  intro x hx
  cases hdd : x.dueDate <;> simp [Bool.and_comm]

/-- Claim C4 counterexample: with permission denied, the first
permission-gate call returns `false`; the second call returns `true`
rather than the first call's outcome, so the outcome is not cached — only
the fact of initialization is. -/
theorem ensurePermission_counterexample :
    (NotificationService.ensurePermission { initialized := false }
      { existingStatus := PermStatus.denied, requestResult := PermStatus.denied }).1
      = false ∧
    (NotificationService.ensurePermission
      (NotificationService.ensurePermission { initialized := false }
        { existingStatus := PermStatus.denied, requestResult := PermStatus.denied }).2.1
      { existingStatus := PermStatus.denied, requestResult := PermStatus.denied }).1
      = true := by
  decide

/-- After any permission-gate call the service is marked initialized. -/
theorem ensurePermission_state (st : NotifState) (env : PermEnv) :
    (NotificationService.ensurePermission st env).2.1 = { initialized := true } := by
  obtain ⟨b⟩ := st
  cases b
  · simp only [NotificationService.ensurePermission]
    split_ifs <;> simp_all
  · rfl

/-- Claim C4 (amended): the permission gate issues at most one prompt per
call, and only on the very first call of the process lifetime: after any
call the service state is initialized, and every call on an initialized
service returns `true` with zero prompts — regardless of the first call's
outcome, so a denied outcome is never re-prompted but is also not what
later calls report. -/
theorem ensurePermission_once (st : NotifState) (env env2 : PermEnv) :
    (NotificationService.ensurePermission st env).2.2 ≤ 1 ∧
    (NotificationService.ensurePermission st env).2.1 = { initialized := true } ∧
    NotificationService.ensurePermission
      (NotificationService.ensurePermission st env).2.1 env2
      = (true, { initialized := true }, 0) := by
  refine ⟨?_, ensurePermission_state st env, ?_⟩
  · obtain ⟨b⟩ := st
    cases b
    · simp only [NotificationService.ensurePermission]
      split_ifs <;> simp
    · simp [NotificationService.ensurePermission]
  · rw [ensurePermission_state]
    simp [NotificationService.ensurePermission]

/-- Claim C5: adding a task whose id is not already stored and reading it
back by id returns a record equal to the original in all fields; in
particular every timestamp field survives the JSON serialization round
trip at full millisecond precision. -/
theorem addTask_getTaskById_roundtrip (s : Store) (t : Task)
    (h : ∀ x ∈ StorageService.getTasks s, x.id ≠ t.id) :
    (StorageService.addTask s t).1 = true ∧
    StorageService.getTaskById (StorageService.addTask s t).2 t.id = some t := by
  refine ⟨rfl, ?_⟩
  simp only [StorageService.addTask, StorageService.getTaskById, getTasks_saveTasks]
  rw [List.find?_append]
  have h1 : (StorageService.getTasks s).find? (fun x => decide (x.id = t.id)) = none := by
    rw [List.find?_eq_none]
    intro x hx
    simpa using h x hx
  rw [h1]
  simp

/-- Claim C5 witness: a task with millisecond-precision timestamps in
every date field, added to a store already holding a task with a
different id, reads back equal to the original. -/
theorem addTask_getTaskById_roundtrip_witness :
    (StorageService.addTask exStoreR exTaskR).1 = true ∧
    StorageService.getTaskById (StorageService.addTask exStoreR exTaskR).2 exTaskR.id
      = some exTaskR :=
  addTask_getTaskById_roundtrip exStoreR exTaskR (by decide)

/-- Claim C3: when the collection contains a task with the given id and
the partial update touches neither id nor createdAt, `updateTask` reports
success, shallow-merges each present update field wholesale onto the first
stored task with that id, leaves id and createdAt unchanged, and sets
`updatedAt` to the (strictly later) update instant; when no task has the
id, it reports `false` and leaves the store untouched. -/
theorem updateTask_merge_spec (s : Store) (taskId : String) (u : TaskUpdate) (now : Int)
    (hid : u.id = none) (hca : u.createdAt = none) :
    (∀ t0, StorageService.getTaskById s taskId = some t0 → t0.updatedAt < now →
      (StorageService.updateTask s taskId u now).1 = true ∧
      ∃ t1, StorageService.getTaskById (StorageService.updateTask s taskId u now).2 taskId
          = some t1 ∧
        t1.id = t0.id ∧ t1.createdAt = t0.createdAt ∧
        t0.updatedAt < t1.updatedAt ∧ t1.updatedAt = now ∧
        t1.title = u.title.getD t0.title ∧
        t1.description = u.description.getD t0.description ∧
        t1.priority = u.priority.getD t0.priority ∧
        t1.status = u.status.getD t0.status ∧
        t1.dueDate = u.dueDate.getD t0.dueDate ∧
        t1.reminderTime = u.reminderTime.getD t0.reminderTime ∧
        t1.notificationId = u.notificationId.getD t0.notificationId) ∧
    (StorageService.getTaskById s taskId = none →
      StorageService.updateTask s taskId u now = (false, s)) := by
  constructor
  · intro t0 h0 hlt
    obtain ⟨ts2, h1, h2⟩ := updateFirst_some (StorageService.getTasks s) taskId u now t0 hid h0
    have hup : StorageService.updateTask s taskId u now
        = (true, (StorageService.saveTasks s ts2).2) := by
      simp [StorageService.updateTask, h1, StorageService.saveTasks]
    rw [hup]
    refine ⟨rfl, mergeTask t0 u now, ?_, ?_, ?_, ?_, rfl, rfl, rfl, rfl, rfl, rfl, rfl, rfl⟩
    · simp only [StorageService.getTaskById, getTasks_saveTasks]
      exact h2
    · simp [mergeTask, hid]
    · simp [mergeTask, hca]
    · simpa [mergeTask] using hlt
  · intro h0
    simp [StorageService.updateTask, updateFirst_none _ _ u now h0]

/-- Claim C3 witness: updating title and status of the single stored task
at a later instant merges exactly those fields, keeps id and createdAt,
and advances updatedAt. -/
theorem updateTask_merge_spec_witness :
    (StorageService.updateTask exStoreW "w1" exUpdW 99999).1 = true ∧
    ∃ t1, StorageService.getTaskById (StorageService.updateTask exStoreW "w1" exUpdW 99999).2 "w1"
        = some t1 ∧
      t1.id = exTaskW.id ∧ t1.createdAt = exTaskW.createdAt ∧
      exTaskW.updatedAt < t1.updatedAt ∧ t1.updatedAt = 99999 ∧
      t1.title = exUpdW.title.getD exTaskW.title ∧
      t1.description = exUpdW.description.getD exTaskW.description ∧
      t1.priority = exUpdW.priority.getD exTaskW.priority ∧
      t1.status = exUpdW.status.getD exTaskW.status ∧
      t1.dueDate = exUpdW.dueDate.getD exTaskW.dueDate ∧
      t1.reminderTime = exUpdW.reminderTime.getD exTaskW.reminderTime ∧
      t1.notificationId = exUpdW.notificationId.getD exTaskW.notificationId :=
  (updateTask_merge_spec exStoreW "w1" exUpdW 99999 rfl rfl).1 exTaskW (by decide) (by decide)

/-- Claim C1 counterexample: completing a pending task that holds a
notification handle through the completion toggle cancels the handle
exactly once, but the stored task's `notificationId` is still the stale
handle, not absent — the claimed invariant is not re-established. -/
theorem toggleComplete_counterexample :
    (handleToggleComplete exSys1 exTask1 1700000001000).cancelCalls = ["n1"] ∧
    (StorageService.getTaskById (handleToggleComplete exSys1 exTask1 1700000001000).store
      "1").map Task.notificationId = some (some "n1") ∧
    ¬ (StorageService.getTaskById (handleToggleComplete exSys1 exTask1 1700000001000).store
      "1").map Task.notificationId = some none := by
  decide

/-- Claim C1 (amended): for every task with a live handle whose status is
not COMPLETED, the completion toggle cancels the previously scheduled
handle exactly once, but the stored task keeps its `notificationId` field
unchanged (only status and updatedAt are written), so the field does not
become absent. -/
theorem toggleComplete_cancels_once_keeps_handle (st : SysState) (task : Task)
    (nid : String) (now : Int) (t0 : Task)
    (hst : task.status ≠ TaskStatus.COMPLETED)
    (hnid : task.notificationId = some nid)
    (h0 : StorageService.getTaskById st.store task.id = some t0) :
    (handleToggleComplete st task now).cancelCalls = st.cancelCalls ++ [nid] ∧
    (StorageService.getTaskById (handleToggleComplete st task now).store task.id).map
      Task.notificationId = some t0.notificationId := by
  have hns : (if task.status = TaskStatus.COMPLETED then TaskStatus.PENDING
      else TaskStatus.COMPLETED) = TaskStatus.COMPLETED := if_neg hst
  obtain ⟨ts2, h1, h2⟩ := updateFirst_some (StorageService.getTasks st.store) task.id
    { status := some TaskStatus.COMPLETED } now t0 rfl h0
  have hup : StorageService.updateTask st.store task.id
      { status := some TaskStatus.COMPLETED } now
      = (true, (StorageService.saveTasks st.store ts2).2) := by
    simp [StorageService.updateTask, h1, StorageService.saveTasks]
  simp only [handleToggleComplete, hns, hup, hnid, if_true]
  refine ⟨trivial, ?_⟩
  have h3 : StorageService.getTaskById (StorageService.saveTasks st.store ts2).2 task.id
      = List.find? (fun t => decide (t.id = task.id)) ts2 := by
    simp only [StorageService.getTaskById, getTasks_saveTasks]
  rw [h3, h2, Option.map_some']
  simp [mergeTask]

/-- Claim C1 (amended) witness: the concrete toggle scenario cancels the
handle once and the stored task still carries it. -/
theorem toggleComplete_cancels_once_keeps_handle_witness :
    (handleToggleComplete exSys1 exTask1 1700000001000).cancelCalls
      = exSys1.cancelCalls ++ ["n1"] ∧
    (StorageService.getTaskById (handleToggleComplete exSys1 exTask1 1700000001000).store
      exTask1.id).map Task.notificationId = some exTask1.notificationId :=
  toggleComplete_cancels_once_keeps_handle exSys1 exTask1 "n1" 1700000001000 exTask1
    (by decide) (by decide) (by decide)

end MyTasks
